import Mathlib

/-!
Verification of `src/src-tauri/src/claude_cli.rs` (the Bounded Process Runner).

The Rust function `process_with_claude_cli(text, prompt, model)` spawns the
external `claude` executable, polls it with `try_wait` under a 30-second
deadline, and classifies every exit path.  We embed it shallowly: the
behaviour of the operating system during one call (the result of `spawn`, the
sequence of `try_wait` observations together with the elapsed time at each
poll, and the result of `wait_with_output`) is a value of `RunEnv`, and the
embedded function returns the produced outcome, the literal Rust
`Result<String, String>` value, and a trace of the side effects performed
(arguments passed to spawn, whether a child was created, how many polls ran,
whether `kill` and `wait_with_output` were called).
-/

/-- Unicode White_Space test, mirroring Rust `char::is_whitespace`. -/
def rustCharIsWhitespace (c : Char) : Bool :=
  let n := c.toNat
  (0x09 ≤ n && n ≤ 0x0D) || n = 0x20 || n = 0x85 || n = 0xA0 || n = 0x1680 ||
  (0x2000 ≤ n && n ≤ 0x200A) || n = 0x2028 || n = 0x2029 || n = 0x202F ||
  n = 0x205F || n = 0x3000

/-- Rust `str::trim`: drop leading and trailing whitespace characters. -/
def rustTrim (s : String) : String :=
  String.mk (((s.data.dropWhile rustCharIsWhitespace).reverse.dropWhile
    rustCharIsWhitespace).reverse)

/-- U+FFFD, the replacement character used by lossy UTF-8 decoding. -/
def replacementChar : Char := Char.ofNat 0xFFFD

/-- Is `b` a UTF-8 continuation byte (`0x80 ..= 0xBF`)? -/
def isUtf8Cont (b : Nat) : Bool := 0x80 ≤ b && b ≤ 0xBF

/-- Valid range of the second byte of a three-byte UTF-8 sequence headed by
`b0` (excludes overlong forms and surrogates). -/
def utf8Valid3Second (b0 b1 : Nat) : Bool :=
  if b0 = 0xE0 then 0xA0 ≤ b1 && b1 ≤ 0xBF
  else if b0 = 0xED then 0x80 ≤ b1 && b1 ≤ 0x9F
  else isUtf8Cont b1

/-- Valid range of the second byte of a four-byte UTF-8 sequence headed by
`b0` (excludes overlong forms and values above U+10FFFF). -/
def utf8Valid4Second (b0 b1 : Nat) : Bool :=
  if b0 = 0xF0 then 0x90 ≤ b1 && b1 ≤ 0xBF
  else if b0 = 0xF4 then 0x80 ≤ b1 && b1 ≤ 0x8F
  else isUtf8Cont b1

/-- Lossy UTF-8 decoding of a byte list, mirroring Rust
`String::from_utf8_lossy`: each maximal invalid subpart is replaced by one
U+FFFD.  The fuel argument (instantiated with the length of the list) only
serves termination; every step consumes at least one byte, so it never runs
out before the input does. -/
def utf8DecodeLossyAux : Nat → List Nat → List Char
  | 0, _ => []
  | _, [] => []
  | fuel + 1, b0 :: rest =>
    if b0 < 0x80 then
      Char.ofNat b0 :: utf8DecodeLossyAux fuel rest
    else if 0xC2 ≤ b0 && b0 ≤ 0xDF then
      match rest with
      | [] => [replacementChar]
      | b1 :: rest1 =>
        if isUtf8Cont b1 then
          Char.ofNat ((b0 - 0xC0) * 0x40 + (b1 - 0x80)) ::
            utf8DecodeLossyAux fuel rest1
        else replacementChar :: utf8DecodeLossyAux fuel rest
    else if 0xE0 ≤ b0 && b0 ≤ 0xEF then
      match rest with
      | [] => [replacementChar]
      | b1 :: rest1 =>
        if utf8Valid3Second b0 b1 then
          match rest1 with
          | [] => [replacementChar]
          | b2 :: rest2 =>
            if isUtf8Cont b2 then
              Char.ofNat ((b0 - 0xE0) * 0x1000 + (b1 - 0x80) * 0x40 +
                (b2 - 0x80)) :: utf8DecodeLossyAux fuel rest2
            else replacementChar :: utf8DecodeLossyAux fuel rest1
        else replacementChar :: utf8DecodeLossyAux fuel rest
    else if 0xF0 ≤ b0 && b0 ≤ 0xF4 then
      match rest with
      | [] => [replacementChar]
      | b1 :: rest1 =>
        if utf8Valid4Second b0 b1 then
          match rest1 with
          | [] => [replacementChar]
          | b2 :: rest2 =>
            if isUtf8Cont b2 then
              match rest2 with
              | [] => [replacementChar]
              | b3 :: rest3 =>
                if isUtf8Cont b3 then
                  Char.ofNat ((b0 - 0xF0) * 0x40000 + (b1 - 0x80) * 0x1000 +
                    (b2 - 0x80) * 0x40 + (b3 - 0x80)) ::
                    utf8DecodeLossyAux fuel rest3
                else replacementChar :: utf8DecodeLossyAux fuel rest2
            else replacementChar :: utf8DecodeLossyAux fuel rest1
        else replacementChar :: utf8DecodeLossyAux fuel rest
    else replacementChar :: utf8DecodeLossyAux fuel rest

/-- Rust `String::from_utf8_lossy` on a byte list. -/
def fromUtf8Lossy (bytes : List Nat) : String :=
  String.mk (utf8DecodeLossyAux bytes.length bytes)

/-- Mirrors `const DEFAULT_TIMEOUT_SECS: u64 = 30`. -/
def DEFAULT_TIMEOUT_SECS : Nat := 30

/-- Mirrors `pub const DEFAULT_CLAUDE_MODEL: &str = "haiku"`. -/
def DEFAULT_CLAUDE_MODEL : String := "haiku"

/-- The timeout in milliseconds (`Duration::from_secs(DEFAULT_TIMEOUT_SECS)`). -/
def defaultTimeoutMs : Nat := DEFAULT_TIMEOUT_SECS * 1000

/-- Mirrors `std::process::ExitStatus`: `success` is `status.success()`. -/
structure ExitStatus where
  success : Bool
deriving DecidableEq, Repr

/-- Mirrors `std::process::Output` as returned by `wait_with_output` /
`output`: an exit status plus captured stdout and stderr byte buffers. -/
structure Output where
  status : ExitStatus
  stdout : List Nat
  stderr : List Nat
deriving DecidableEq, Repr

/-- One observation made by the polling loop: the result of `try_wait`
together with `start.elapsed()` (in milliseconds) at that iteration. -/
inductive TryWaitResult where
  | exited (status : ExitStatus)
  | running
  | err (msg : String)
deriving DecidableEq, Repr

/-- A poll observation: `try_wait` result and the elapsed time seen then. -/
structure PollObs where
  res : TryWaitResult
  elapsedMs : Nat
deriving DecidableEq, Repr

/-- Behaviour of a successfully spawned child process during one call: the
finite sequence of poll observations the loop will see, and the result of
`wait_with_output` if the loop reaches harvesting. -/
structure ChildBehavior where
  polls : List PollObs
  waitWithOutput : Except String Output

/-- Behaviour of the operating system for one call: the result of `spawn`,
either an OS error message or a child process. -/
structure RunEnv where
  spawn : Except String ChildBehavior

/-- How the polling loop ended. -/
inductive LoopExit where
  | exited (status : ExitStatus)
  | timedOut
  | waitErr (msg : String)
  | exhausted
deriving DecidableEq, Repr

/-- Side effects performed by one call: the argument vector handed to spawn
(`none` when no spawn was attempted), whether a child process was actually
created, the number of `try_wait` polls, and whether `kill` and
`wait_with_output` were called. -/
structure RunTrace where
  spawnArgs : Option (List String)
  processSpawned : Bool
  pollCount : Nat
  killed : Bool
  waitedWithOutput : Bool
deriving DecidableEq, Repr

/-- The spec's Invocation Outcome.  Each constructor labels concrete `return`
statements of `process_with_claude_cli`:
`PassThrough` labels the two `Ok(text.to_string())` returns (blank input and
empty backend output), `Success` labels `Ok(result)`, and `Failure kind d`
labels the `Err(...)` returns, whose literal strings are kept alongside in
`RunResult.raw`. -/
inductive FailureKind where
  | SpawnError
  | WaitError
  | Timeout
  | BackendError
deriving DecidableEq, Repr

/-- Invocation Outcome: pass-through of the original text, success with the
transformed text, or a classified failure with a detail string. -/
inductive Outcome where
  | PassThrough (text : String)
  | Success (output : String)
  | Failure (kind : FailureKind) (detail : String)
deriving DecidableEq, Repr

/-- What one call returns: the outcome (`none` when the modelled poll trace
ended before the call could decide, which cannot happen in a real run since
elapsed time grows past the deadline), the literal Rust
`Result<String, String>` value, and the side-effect trace. -/
structure RunResult where
  outcome : Option Outcome
  raw : Option (Except String String)
  trace : RunTrace

/-- Mirrors `format!("{}\n\nText:\n{}", prompt, text)`. -/
def fullPrompt (prompt text : String) : String :=
  prompt ++ "\n\nText:\n" ++ text

/-- Mirrors `if model.is_empty() { DEFAULT_CLAUDE_MODEL } else { model }`. -/
def modelToUse (model : String) : String :=
  if model.isEmpty then DEFAULT_CLAUDE_MODEL else model

/-- The argument vector passed to the `claude` executable:
`.arg("--model").arg(model_to_use).arg("-p").arg(&full_prompt)`. -/
def cliArgs (prompt text model : String) : List String :=
  ["--model", modelToUse model, "-p", fullPrompt prompt text]

/-- The `loop { match child.try_wait() { ... } }` of the source, walking the
modelled poll observations: an exited status or a `try_wait` error ends the
loop at once; while still running, elapsed time strictly above the timeout
ends it with a timeout, otherwise the loop sleeps 100 ms and polls again.
Returns how the loop ended and the number of polls consumed. -/
def waitLoop (timeoutMs : Nat) : List PollObs → LoopExit × Nat
  | [] => (.exhausted, 0)
  | o :: rest =>
    match o.res with
    | .exited st => (.exited st, 1)
    | .err e => (.waitErr e, 1)
    | .running =>
      if o.elapsedMs > timeoutMs then (.timedOut, 1)
      else
        let r := waitLoop timeoutMs rest
        (r.1, r.2 + 1)

/-- Harvesting after `try_wait` returned `Ok(Some(status))`: call
`wait_with_output`; on success of `status` decode stdout lossily and trim,
returning the original text if the trimmed result is empty; on failure of
`status` decode stderr lossily into the error message. -/
def harvestStep (text : String) (args : List String) (child : ChildBehavior)
    (st : ExitStatus) (n : Nat) : RunResult :=
  match child.waitWithOutput with
  | .error e =>
    ⟨some (.Failure .WaitError e),
     some (.error ("Failed to read Claude CLI output: " ++ e)),
     ⟨some args, true, n, false, true⟩⟩
  | .ok out =>
    if st.success then
      let result := rustTrim (fromUtf8Lossy out.stdout)
      if result.isEmpty then
        ⟨some (.PassThrough text), some (.ok text),
         ⟨some args, true, n, false, true⟩⟩
      else
        ⟨some (.Success result), some (.ok result),
         ⟨some args, true, n, false, true⟩⟩
    else
      ⟨some (.Failure .BackendError (fromUtf8Lossy out.stderr)),
       some (.error ("Claude CLI failed: " ++ fromUtf8Lossy out.stderr)),
       ⟨some args, true, n, false, true⟩⟩

/-- Dispatch on how the polling loop ended (with the poll count it consumed).
On timeout the child is killed (`child.kill()`) and the call returns without
calling `wait_with_output`; on a `try_wait` error the call returns at once
with neither a kill nor a reap. -/
def afterLoop (text : String) (args : List String) (child : ChildBehavior) :
    LoopExit × Nat → RunResult
  | (.exited st, n) => harvestStep text args child st n
  | (.timedOut, n) =>
    ⟨some (.Failure .Timeout
       ("timed out after " ++ toString DEFAULT_TIMEOUT_SECS ++ " seconds")),
     some (.error ("Claude CLI timed out after " ++
       toString DEFAULT_TIMEOUT_SECS ++ " seconds")),
     ⟨some args, true, n, true, false⟩⟩
  | (.waitErr e, n) =>
    ⟨some (.Failure .WaitError e),
     some (.error ("Error waiting for Claude CLI: " ++ e)),
     ⟨some args, true, n, false, false⟩⟩
  | (.exhausted, n) => ⟨none, none, ⟨some args, true, n, false, false⟩⟩

/-- The part of the call after a successful spawn: run the polling loop over
the child's observations and dispatch on how it ended. -/
def afterSpawn (text : String) (args : List String) (child : ChildBehavior) :
    RunResult :=
  afterLoop text args child (waitLoop defaultTimeoutMs child.polls)

/-- The embedded `process_with_claude_cli(text, prompt, model)`: fast path on
blank input, then spawn `claude` with `cliArgs` and enter the polling loop. -/
def process_with_claude_cli (env : RunEnv) (text prompt model : String) :
    RunResult :=
  if (rustTrim text).isEmpty then
    ⟨some (.PassThrough text), some (.ok text), ⟨none, false, 0, false, false⟩⟩
  else
    match env.spawn with
    | .error e =>
      ⟨some (.Failure .SpawnError e),
       some (.error ("Failed to spawn Claude CLI: " ++ e)),
       ⟨some (cliArgs prompt text model), false, 0, false, false⟩⟩
    | .ok child => afterSpawn text (cliArgs prompt text model) child

/-- The embedded `is_claude_cli_available()`: the probe spawns
`claude --version` and collects its output; the argument models the result of
`Command::new("claude").arg("--version").output()`.  Returns `status.success()`
on `Ok`, and `false` on any spawn error. -/
def is_claude_cli_available (probe : Except String Output) : Bool :=
  match probe with
  | .ok out => out.status.success
  | .error _ => false

/-! Helper lemmas shared by several claims. -/

/-- Every branch of harvesting records the spawn arguments in the trace. -/
theorem harvestStep_spawnArgs (text : String) (args : List String)
    (child : ChildBehavior) (st : ExitStatus) (n : Nat) :
    (harvestStep text args child st n).trace.spawnArgs = some args := by
  unfold harvestStep
  cases hw : child.waitWithOutput
  · rfl
  · dsimp only
    split_ifs <;> rfl

/-- Every branch of the dispatch on the loop result records the spawn
arguments. -/
theorem afterLoop_spawnArgs (text : String) (args : List String)
    (child : ChildBehavior) (lp : LoopExit × Nat) :
    (afterLoop text args child lp).trace.spawnArgs = some args := by
  obtain ⟨ex, n⟩ := lp
  cases ex
  · exact harvestStep_spawnArgs ..
  · rfl
  · rfl
  · rfl

/-- Every branch after a successful spawn records the spawn arguments. -/
theorem afterSpawn_spawnArgs (text : String) (args : List String)
    (child : ChildBehavior) :
    (afterSpawn text args child).trace.spawnArgs = some args :=
  afterLoop_spawnArgs ..

/-- If the loop sees only running observations within the deadline and then a
running observation strictly past the deadline, it ends with a timeout after
consuming them all. -/
theorem waitLoop_timedOut_of_deadline (pre : List PollObs) (t : Nat)
    (hpre : ∀ o ∈ pre, o.res = .running ∧ o.elapsedMs ≤ defaultTimeoutMs)
    (ht : t > defaultTimeoutMs) :
    waitLoop defaultTimeoutMs (pre ++ [⟨.running, t⟩]) =
      (.timedOut, pre.length + 1) := by
  induction pre with
  | nil => simp [waitLoop, ht]
  | cons o rest ih =>
    obtain ⟨h1, h2⟩ := hpre o (by simp)
    have ih2 := ih fun x hx => hpre x (by simp [hx])
    rw [List.cons_append]
    rw [waitLoop, h1]
    dsimp only
    rw [if_neg (by omega : ¬ o.elapsedMs > defaultTimeoutMs)]
    simp [ih2]

/-! Claim theorems. -/

/-- C1: for every input text whose whitespace-trimmed form is empty
(including the empty string and whitespace-only strings), and for every
instruction and variant, the call returns `PassThrough` carrying the original
untrimmed text byte-for-byte, and no process is spawned. -/
theorem claim_C1_blank_input_pass_through (env : RunEnv)
    (text prompt model : String) (h : (rustTrim text).isEmpty = true) :
    process_with_claude_cli env text prompt model =
      ⟨some (.PassThrough text), some (.ok text),
       ⟨none, false, 0, false, false⟩⟩ := by
  simp [process_with_claude_cli, h]

theorem claim_C1_blank_input_pass_through_witness :
    (rustTrim " \t\n").isEmpty = true ∧
    process_with_claude_cli ⟨.error "enoent"⟩ " \t\n" "Fix grammar" "haiku" =
      ⟨some (.PassThrough " \t\n"), some (.ok " \t\n"),
       ⟨none, false, 0, false, false⟩⟩ :=
  ⟨by decide,
   claim_C1_blank_input_pass_through ⟨.error "enoent"⟩ " \t\n" "Fix grammar"
     "haiku" (by decide)⟩

/-- C5: for every call with non-blank text, the backend is invoked with
exactly the argument vector `[--model, resolved, -p, combined]`, where
`resolved` is the variant if non-empty and the fixed default otherwise, and
`combined` is the instruction, a blank-line separator, the literal label
`Text:`, a line break, then the text verbatim, as one single argument. -/
theorem claim_C5_argument_vector (env : RunEnv) (text prompt model : String)
    (htext : (rustTrim text).isEmpty = false) :
    (process_with_claude_cli env text prompt model).trace.spawnArgs =
      some ["--model", if model.isEmpty then DEFAULT_CLAUDE_MODEL else model,
            "-p", prompt ++ "\n\nText:\n" ++ text] := by
  unfold process_with_claude_cli
  simp only [htext, Bool.false_eq_true, if_false]
  cases henv : env.spawn
  · rfl
  · rw [afterSpawn_spawnArgs]
    rfl

theorem claim_C5_argument_vector_witness :
    (rustTrim "hi").isEmpty = false ∧
    (process_with_claude_cli ⟨.error "enoent"⟩ "hi" "Fix" "").trace.spawnArgs =
      some ["--model", "haiku", "-p", "Fix\n\nText:\nhi"] :=
  ⟨by decide, claim_C5_argument_vector ⟨.error "enoent"⟩ "hi" "Fix" ""
    (by decide)⟩

/-- C8: for every call with non-blank text whose spawn fails, the call
immediately returns `Failure (SpawnError, message)` with the poll loop never
entered (zero polls) and no process created. -/
theorem claim_C8_spawn_error_immediate (env : RunEnv)
    (text prompt model e : String)
    (htext : (rustTrim text).isEmpty = false)
    (hspawn : env.spawn = .error e) :
    process_with_claude_cli env text prompt model =
      ⟨some (.Failure .SpawnError e),
       some (.error ("Failed to spawn Claude CLI: " ++ e)),
       ⟨some (cliArgs prompt text model), false, 0, false, false⟩⟩ := by
  simp [process_with_claude_cli, htext, hspawn]

theorem claim_C8_spawn_error_immediate_witness :
    (rustTrim "hello").isEmpty = false ∧
    process_with_claude_cli ⟨.error "No such file or directory (os error 2)"⟩
        "hello" "Fix grammar" "haiku" =
      ⟨some (.Failure .SpawnError "No such file or directory (os error 2)"),
       some (.error
         "Failed to spawn Claude CLI: No such file or directory (os error 2)"),
       ⟨some ["--model", "haiku", "-p", "Fix grammar\n\nText:\nhello"],
        false, 0, false, false⟩⟩ :=
  ⟨by decide,
   claim_C8_spawn_error_immediate
     ⟨.error "No such file or directory (os error 2)"⟩ "hello" "Fix grammar"
     "haiku" "No such file or directory (os error 2)" (by decide) rfl⟩

/-- C9: `is_claude_cli_available` returns true if and only if the
version-query invocation starts and exits with a success status; any spawn
error or non-zero exit yields false. -/
theorem claim_C9_available_iff_version_success (probe : Except String Output) :
    is_claude_cli_available probe = true ↔
      ∃ out, probe = .ok out ∧ out.status.success = true := by
  cases probe with
  | error e => simp [is_claude_cli_available]
  | ok out => simp [is_claude_cli_available]

theorem claim_C9_available_iff_version_success_witness :
    is_claude_cli_available (.ok ⟨⟨true⟩, [49, 46, 48], []⟩) = true :=
  (claim_C9_available_iff_version_success (.ok ⟨⟨true⟩, [49, 46, 48], []⟩)).mpr
    ⟨⟨⟨true⟩, [49, 46, 48], []⟩, rfl, rfl⟩

/-- C10: only the exactly-empty variant string selects the default model; a
whitespace-only variant such as a single space is not trimmed or replaced and
is passed to the backend unchanged as the `--model` argument, unlike the text
payload, whose blank-detection trims first. -/
theorem claim_C10_variant_not_trimmed :
    (∀ m : String, m ≠ "" → modelToUse m = m) ∧
    modelToUse "" = DEFAULT_CLAUDE_MODEL ∧
    ∀ (env : RunEnv) (text prompt : String),
      (rustTrim text).isEmpty = false →
      (process_with_claude_cli env text prompt " ").trace.spawnArgs =
        some ["--model", " ", "-p", prompt ++ "\n\nText:\n" ++ text] := by
  refine ⟨?_, rfl, ?_⟩
  · intro m hm
    rw [modelToUse, if_neg]
    simp [String.isEmpty_iff, hm]
  · intro env text prompt htext
    unfold process_with_claude_cli
    simp only [htext, Bool.false_eq_true, if_false]
    cases henv : env.spawn
    · rfl
    · rw [afterSpawn_spawnArgs]
      rfl

theorem claim_C10_variant_not_trimmed_witness :
    modelToUse " " = " " ∧
    (process_with_claude_cli ⟨.error "enoent"⟩ "hi" "Fix"
        " ").trace.spawnArgs =
      some ["--model", " ", "-p", "Fix\n\nText:\nhi"] :=
  ⟨claim_C10_variant_not_trimmed.1 " " (by decide),
   claim_C10_variant_not_trimmed.2.2 ⟨.error "enoent"⟩ "hi" "Fix" (by decide)⟩

/-- C3: for every call whose backend process exits with a non-zero status,
the outcome is `Failure (BackendError, detail)` where `detail` is exactly the
lossily decoded stderr text, verbatim; the raw Rust value carries the same
stderr text after its fixed path marker. -/
theorem claim_C3_backend_error_verbatim_stderr (env : RunEnv)
    (text prompt model : String) (child : ChildBehavior) (st : ExitStatus)
    (out : Output) (n : Nat)
    (htext : (rustTrim text).isEmpty = false)
    (hspawn : env.spawn = .ok child)
    (hloop : waitLoop defaultTimeoutMs child.polls = (.exited st, n))
    (hst : st.success = false)
    (hout : child.waitWithOutput = .ok out) :
    (process_with_claude_cli env text prompt model).outcome =
      some (.Failure .BackendError (fromUtf8Lossy out.stderr)) ∧
    (process_with_claude_cli env text prompt model).raw =
      some (.error ("Claude CLI failed: " ++ fromUtf8Lossy out.stderr)) := by
  unfold process_with_claude_cli afterSpawn
  simp only [htext, Bool.false_eq_true, if_false, hspawn]
  rw [hloop]
  simp [afterLoop, harvestStep, hout, hst]

theorem claim_C3_backend_error_verbatim_stderr_witness :
    (process_with_claude_cli
        ⟨.ok ⟨[⟨.exited ⟨false⟩, 50⟩],
          .ok ⟨⟨false⟩, [],
            [114, 97, 116, 101, 32, 108, 105, 109, 105, 116, 101, 100]⟩⟩⟩
      "x" "Fix grammar" "haiku").outcome =
      some (.Failure .BackendError "rate limited") :=
  (claim_C3_backend_error_verbatim_stderr
    ⟨.ok ⟨[⟨.exited ⟨false⟩, 50⟩],
      .ok ⟨⟨false⟩, [],
        [114, 97, 116, 101, 32, 108, 105, 109, 105, 116, 101, 100]⟩⟩⟩
    "x" "Fix grammar" "haiku"
    ⟨[⟨.exited ⟨false⟩, 50⟩],
     .ok ⟨⟨false⟩, [],
       [114, 97, 116, 101, 32, 108, 105, 109, 105, 116, 101, 100]⟩⟩
    ⟨false⟩
    ⟨⟨false⟩, [], [114, 97, 116, 101, 32, 108, 105, 109, 105, 116, 101, 100]⟩
    1 (by decide) rfl rfl rfl rfl).1

/-- C4: for every call whose backend process exits with a zero status, the
stdout bytes are decoded lossily, trimmed of surrounding whitespace, and the
call returns `PassThrough` of the original text when the trimmed result is
empty and `Success` of the trimmed result otherwise. -/
theorem claim_C4_success_trims_stdout (env : RunEnv)
    (text prompt model : String) (child : ChildBehavior) (st : ExitStatus)
    (out : Output) (n : Nat)
    (htext : (rustTrim text).isEmpty = false)
    (hspawn : env.spawn = .ok child)
    (hloop : waitLoop defaultTimeoutMs child.polls = (.exited st, n))
    (hst : st.success = true)
    (hout : child.waitWithOutput = .ok out) :
    (process_with_claude_cli env text prompt model).outcome =
      some (if (rustTrim (fromUtf8Lossy out.stdout)).isEmpty then
              Outcome.PassThrough text
            else Outcome.Success (rustTrim (fromUtf8Lossy out.stdout))) := by
  unfold process_with_claude_cli afterSpawn
  simp only [htext, Bool.false_eq_true, if_false, hspawn]
  rw [hloop]
  simp only [afterLoop, harvestStep, hout, hst]
  by_cases hres : (rustTrim (fromUtf8Lossy out.stdout)).isEmpty
  · simp [hres]
  · rw [Bool.not_eq_true] at hres
    simp [hres]

theorem claim_C4_success_trims_stdout_witness :
    (process_with_claude_cli
        ⟨.ok ⟨[⟨.exited ⟨true⟩, 80⟩],
          .ok ⟨⟨true⟩,
            [32, 32, 72, 101, 108, 108, 111, 32, 119, 111, 114, 108, 100, 32,
             32, 10], []⟩⟩⟩
      "x" "Fix grammar" "haiku").outcome =
      some (.Success "Hello world") :=
  claim_C4_success_trims_stdout
    ⟨.ok ⟨[⟨.exited ⟨true⟩, 80⟩],
      .ok ⟨⟨true⟩,
        [32, 32, 72, 101, 108, 108, 111, 32, 119, 111, 114, 108, 100, 32, 32,
         10], []⟩⟩⟩
    "x" "Fix grammar" "haiku"
    ⟨[⟨.exited ⟨true⟩, 80⟩],
     .ok ⟨⟨true⟩,
       [32, 32, 72, 101, 108, 108, 111, 32, 119, 111, 114, 108, 100, 32, 32,
        10], []⟩⟩
    ⟨true⟩
    ⟨⟨true⟩,
     [32, 32, 72, 101, 108, 108, 111, 32, 119, 111, 114, 108, 100, 32, 32,
      10], []⟩
    1 (by decide) rfl rfl rfl rfl

/-- C6: whenever the wait loop observes the process still running strictly
after the 30-second deadline, the child is killed and the call returns
`Failure (Timeout, "timed out after 30 seconds")` without calling
`wait_with_output`, so buffered output is discarded. -/
theorem claim_C6_timeout_kills_and_discards (env : RunEnv)
    (text prompt model : String) (child : ChildBehavior) (pre : List PollObs)
    (t : Nat)
    (htext : (rustTrim text).isEmpty = false)
    (hspawn : env.spawn = .ok child)
    (hpolls : child.polls = pre ++ [⟨.running, t⟩])
    (hpre : ∀ o ∈ pre, o.res = .running ∧ o.elapsedMs ≤ defaultTimeoutMs)
    (ht : t > defaultTimeoutMs) :
    (process_with_claude_cli env text prompt model).outcome =
      some (.Failure .Timeout
        ("timed out after " ++ toString DEFAULT_TIMEOUT_SECS ++ " seconds")) ∧
    (process_with_claude_cli env text prompt model).trace.killed = true ∧
    (process_with_claude_cli env text prompt model).trace.waitedWithOutput =
      false := by
  have hl := waitLoop_timedOut_of_deadline pre t hpre ht
  unfold process_with_claude_cli afterSpawn
  simp only [htext, Bool.false_eq_true, if_false, hspawn]
  rw [hpolls, hl]
  exact ⟨rfl, rfl, rfl⟩

theorem claim_C6_timeout_kills_and_discards_witness :
    (process_with_claude_cli
        ⟨.ok ⟨[⟨.running, 30001⟩], .ok ⟨⟨true⟩, [], []⟩⟩⟩
      "x" "Fix grammar" "haiku").outcome =
      some (.Failure .Timeout "timed out after 30 seconds") ∧
    (process_with_claude_cli
        ⟨.ok ⟨[⟨.running, 30001⟩], .ok ⟨⟨true⟩, [], []⟩⟩⟩
      "x" "Fix grammar" "haiku").trace.killed = true ∧
    (process_with_claude_cli
        ⟨.ok ⟨[⟨.running, 30001⟩], .ok ⟨⟨true⟩, [], []⟩⟩⟩
      "x" "Fix grammar" "haiku").trace.waitedWithOutput = false :=
  claim_C6_timeout_kills_and_discards
    ⟨.ok ⟨[⟨.running, 30001⟩], .ok ⟨⟨true⟩, [], []⟩⟩⟩
    "x" "Fix grammar" "haiku"
    ⟨[⟨.running, 30001⟩], .ok ⟨⟨true⟩, [], []⟩⟩
    [] 30001 (by decide) rfl rfl (by simp) (by decide)

/-- C7 counterexample: when `try_wait` itself fails, the source's
`Err(e) => return Err(...)` arm returns at once without calling `kill`, so no
termination of the still-running process is attempted, contrary to the claim. -/
theorem claim_C7_counterexample_no_kill_on_wait_error :
    (process_with_claude_cli
        ⟨.ok ⟨[⟨.err "Interrupted system call", 5⟩], .ok ⟨⟨true⟩, [], []⟩⟩⟩
      "x" "Fix grammar" "haiku").outcome =
      some (.Failure .WaitError "Interrupted system call") ∧
    (process_with_claude_cli
        ⟨.ok ⟨[⟨.err "Interrupted system call", 5⟩], .ok ⟨⟨true⟩, [], []⟩⟩⟩
      "x" "Fix grammar" "haiku").trace.killed = false ∧
    (process_with_claude_cli
        ⟨.ok ⟨[⟨.err "Interrupted system call", 5⟩], .ok ⟨⟨true⟩, [], []⟩⟩⟩
      "x" "Fix grammar" "haiku").trace.waitedWithOutput = false :=
  ⟨rfl, rfl, rfl⟩

/-- C7 (amended): when the non-blocking status check fails with an OS-level
error, the call immediately returns `Failure (WaitError, message)` and
abandons the loop, but no termination of the still-running process is
attempted — it is neither killed nor waited on. -/
theorem claim_C7_amended_wait_error_abandons (env : RunEnv)
    (text prompt model e : String) (child : ChildBehavior) (n : Nat)
    (htext : (rustTrim text).isEmpty = false)
    (hspawn : env.spawn = .ok child)
    (hloop : waitLoop defaultTimeoutMs child.polls = (.waitErr e, n)) :
    (process_with_claude_cli env text prompt model).outcome =
      some (.Failure .WaitError e) ∧
    (process_with_claude_cli env text prompt model).raw =
      some (.error ("Error waiting for Claude CLI: " ++ e)) ∧
    (process_with_claude_cli env text prompt model).trace.killed = false ∧
    (process_with_claude_cli env text prompt model).trace.waitedWithOutput =
      false := by
  unfold process_with_claude_cli afterSpawn
  simp only [htext, Bool.false_eq_true, if_false, hspawn]
  rw [hloop]
  exact ⟨rfl, rfl, rfl, rfl⟩

theorem claim_C7_amended_wait_error_abandons_witness :
    (process_with_claude_cli ⟨.ok ⟨[⟨.err "EINTR", 7⟩], .ok ⟨⟨true⟩, [], []⟩⟩⟩
      "y" "Translate" "sonnet").outcome = some (.Failure .WaitError "EINTR") ∧
    (process_with_claude_cli ⟨.ok ⟨[⟨.err "EINTR", 7⟩], .ok ⟨⟨true⟩, [], []⟩⟩⟩
      "y" "Translate" "sonnet").raw =
      some (.error "Error waiting for Claude CLI: EINTR") ∧
    (process_with_claude_cli ⟨.ok ⟨[⟨.err "EINTR", 7⟩], .ok ⟨⟨true⟩, [], []⟩⟩⟩
      "y" "Translate" "sonnet").trace.killed = false ∧
    (process_with_claude_cli ⟨.ok ⟨[⟨.err "EINTR", 7⟩], .ok ⟨⟨true⟩, [], []⟩⟩⟩
      "y" "Translate" "sonnet").trace.waitedWithOutput = false :=
  claim_C7_amended_wait_error_abandons
    ⟨.ok ⟨[⟨.err "EINTR", 7⟩], .ok ⟨⟨true⟩, [], []⟩⟩⟩ "y" "Translate" "sonnet"
    "EINTR" ⟨[⟨.err "EINTR", 7⟩], .ok ⟨⟨true⟩, [], []⟩⟩ 1 (by decide) rfl rfl

/-- C2 counterexample: a spawned call that hits a `try_wait` failure returns
with the process neither reaped nor killed, so it is abandoned still running
and unkilled, contrary to the claimed invariant. -/
theorem claim_C2_counterexample_abandoned_process :
    (process_with_claude_cli
        ⟨.ok ⟨[⟨.err "os error 10", 0⟩], .ok ⟨⟨true⟩, [], []⟩⟩⟩
      "hello" "Fix grammar" "").trace.processSpawned = true ∧
    (process_with_claude_cli
        ⟨.ok ⟨[⟨.err "os error 10", 0⟩], .ok ⟨⟨true⟩, [], []⟩⟩⟩
      "hello" "Fix grammar" "").outcome.isSome = true ∧
    (process_with_claude_cli
        ⟨.ok ⟨[⟨.err "os error 10", 0⟩], .ok ⟨⟨true⟩, [], []⟩⟩⟩
      "hello" "Fix grammar" "").trace.killed = false ∧
    (process_with_claude_cli
        ⟨.ok ⟨[⟨.err "os error 10", 0⟩], .ok ⟨⟨true⟩, [], []⟩⟩⟩
      "hello" "Fix grammar" "").trace.waitedWithOutput = false :=
  ⟨rfl, rfl, rfl, rfl⟩

/-- C2 (amended): every spawned call that returns an outcome either called
`wait_with_output` (the harvest paths), or killed the process and returned
the timeout failure without reaping it, or — on the `try_wait` failure
path — returned a `WaitError` failure with the process neither killed nor
waited on. -/
theorem claim_C2_amended_process_disposition (env : RunEnv)
    (text prompt model : String) (oc : Outcome)
    (hoc : (process_with_claude_cli env text prompt model).outcome = some oc)
    (hsp : (process_with_claude_cli env text prompt
      model).trace.processSpawned = true) :
    (process_with_claude_cli env text prompt model).trace.waitedWithOutput =
      true ∨
    ((process_with_claude_cli env text prompt model).trace.killed = true ∧
      oc = .Failure .Timeout
        ("timed out after " ++ toString DEFAULT_TIMEOUT_SECS ++ " seconds")) ∨
    ((process_with_claude_cli env text prompt model).trace.killed = false ∧
     (process_with_claude_cli env text prompt model).trace.waitedWithOutput =
       false ∧
     ∃ e, oc = .Failure .WaitError e) := by
  by_cases htext : (rustTrim text).isEmpty = true
  · simp [process_with_claude_cli, htext] at hsp
  · rw [Bool.not_eq_true] at htext
    cases henv : env.spawn with
    | error e => simp [process_with_claude_cli, htext, henv] at hsp
    | ok child =>
      have hrun : process_with_claude_cli env text prompt model =
          afterLoop text (cliArgs prompt text model) child
            (waitLoop defaultTimeoutMs child.polls) := by
        unfold process_with_claude_cli afterSpawn
        simp [htext, henv]
      rw [hrun] at hoc ⊢
      rcases hwl : waitLoop defaultTimeoutMs child.polls with ⟨ex, n⟩
      rw [hwl] at hoc
      cases ex with
      | exited st =>
        left
        unfold afterLoop harvestStep
        cases hw : child.waitWithOutput
        · rfl
        · dsimp only
          split_ifs <;> rfl
      | timedOut =>
        right; left
        refine ⟨rfl, ?_⟩
        simpa [afterLoop] using hoc.symm
      | waitErr e =>
        right; right
        refine ⟨rfl, rfl, e, ?_⟩
        simpa [afterLoop] using hoc.symm
      | exhausted => simp [afterLoop] at hoc

theorem claim_C2_amended_process_disposition_witness :
    (process_with_claude_cli
        ⟨.ok ⟨[⟨.running, 40000⟩], .ok ⟨⟨true⟩, [], []⟩⟩⟩
      "abc" "Fix grammar" "haiku").trace.waitedWithOutput = true ∨
    ((process_with_claude_cli
        ⟨.ok ⟨[⟨.running, 40000⟩], .ok ⟨⟨true⟩, [], []⟩⟩⟩
      "abc" "Fix grammar" "haiku").trace.killed = true ∧
      Outcome.Failure .Timeout "timed out after 30 seconds" =
        .Failure .Timeout
          ("timed out after " ++ toString DEFAULT_TIMEOUT_SECS ++
            " seconds")) ∨
    ((process_with_claude_cli
        ⟨.ok ⟨[⟨.running, 40000⟩], .ok ⟨⟨true⟩, [], []⟩⟩⟩
      "abc" "Fix grammar" "haiku").trace.killed = false ∧
     (process_with_claude_cli
        ⟨.ok ⟨[⟨.running, 40000⟩], .ok ⟨⟨true⟩, [], []⟩⟩⟩
      "abc" "Fix grammar" "haiku").trace.waitedWithOutput = false ∧
     ∃ e, Outcome.Failure .Timeout "timed out after 30 seconds" =
       .Failure .WaitError e) :=
  claim_C2_amended_process_disposition
    ⟨.ok ⟨[⟨.running, 40000⟩], .ok ⟨⟨true⟩, [], []⟩⟩⟩
    "abc" "Fix grammar" "haiku"
    (.Failure .Timeout "timed out after 30 seconds") rfl rfl
